import Mathlib

/-!
Verification of the browser to-do list application (src/script.js).

This file gives a shallow embedding of the to-do list program and proves
properties of it.  The program keeps an ordered list of task rows (each an
`li` element carrying a text span and a completed class), a shared text
input field, a dark-theme flag on the body, and a key-value persistent
store (localStorage) with two keys: `tasks` (a JSON array of
text/completed objects) and `themePreference` (a string).

Modelling choices:
* A DOM task row is modelled by its observable content: its text and
  whether it carries the `completed` class (`Task`).
* The whole mutable state (DOM list, input field, body class, the two
  storage keys, and the alerts surfaced so far) is one record `AppState`.
* `JSON.parse` / `JSON.stringify` are modelled at the level of parse
  trees: a stored string is either a well-formed JSON document (carried
  as its parse tree `JsVal`) or a string that does not parse
  (`StoredVal.notJson`, carrying the raw text).  `JSON.stringify` always
  produces a well-formed document, and parsing a stringified document
  returns the same tree.
* A thrown JavaScript exception is modelled by `Except.error`; a handler
  that runs to completion returns `Except.ok` (or is a total function
  when the source can not throw).
-/

namespace TodoApp

/-- A JavaScript value as obtained from `JSON.parse`, extended with
`undefined` for missing object properties.  JSON numerals are modelled as
integers; non-integral numerals play no role in any property below. -/
inductive JsVal where
  | str (s : String)
  | bool (b : Bool)
  | num (n : Int)
  | null
  | arr (elems : List JsVal)
  | obj (fields : List (String × JsVal))
  | undefined

mutual

/-- JavaScript string coercion `String(v)`, as performed by an assignment
to `textContent`.  Arrays join the coercions of their elements with
commas, where `null` and `undefined` elements coerce to the empty
string. -/
def jsToString : JsVal → String
  | .str s => s
  | .bool b => if b then "true" else "false"
  | .num n => toString n
  | .null => "null"
  | .undefined => "undefined"
  | .obj _ => "[object Object]"
  | .arr elems => jsArrJoin elems

/-- Comma-joining used by the array case of `String(v)`. -/
def jsArrJoin : List JsVal → String
  | [] => ""
  | [v] => jsElemToString v
  | v :: rest => jsElemToString v ++ "," ++ jsArrJoin rest

/-- One array element inside `Array.prototype.toString`. -/
def jsElemToString : JsVal → String
  | .null => ""
  | .undefined => ""
  | v => jsToString v

end

/-- JavaScript truthiness of a value, as used by `if (isCompleted)` and
`!isCompleted`. -/
def jsTruthy : JsVal → Bool
  | .str s => s != ""
  | .bool b => b
  | .num n => n != 0
  | .null => false
  | .undefined => false
  | .arr _ => true
  | .obj _ => true

/-- JavaScript `String.prototype.trim`: drop leading and trailing
whitespace characters (space, tab, carriage return, line feed — the
whitespace characters relevant to this program). -/
def jsTrim (s : String) : String :=
  String.mk (((s.data.dropWhile Char.isWhitespace).reverse.dropWhile Char.isWhitespace).reverse)

/-- The strict comparison `v === ""`: true exactly when `v` is the empty
string. -/
def isEmptyString : JsVal → Bool
  | .str s => s == ""
  | _ => false

/-- Property access `v.field`.  On `null` and `undefined` it throws a
TypeError; on an object it returns the field or `undefined` when absent
(the fields of a parsed object are distinct); on any other value the
properties named `text` and `completed` do not exist, so it returns
`undefined`. -/
def getField (v : JsVal) (fieldName : String) : Except String JsVal :=
  match v with
  | .null => .error "TypeError: cannot read properties of null"
  | .undefined => .error "TypeError: cannot read properties of undefined"
  | .obj fields => .ok ((fields.lookup fieldName).getD .undefined)
  | _ => .ok .undefined

/-- A string held under a localStorage key, seen through `JSON.parse`:
either a well-formed JSON document, carried as its parse tree, or a
string that `JSON.parse` rejects, carried raw. -/
inductive StoredVal where
  | json (v : JsVal)
  | notJson (raw : String)

/-- Truthiness of the stored string itself, as used by
`if (savedTasks)` and `if (savedTheme)`: only the empty string is falsy,
and the textual form of a well-formed JSON document is never empty. -/
def StoredVal.isTruthy : StoredVal → Bool
  | .json _ => true
  | .notJson raw => raw != ""

/-- `JSON.parse` on a stored string: returns the parse tree of a
well-formed document and throws a SyntaxError otherwise. -/
def jsonParse : StoredVal → Except String JsVal
  | .json v => .ok v
  | .notJson raw => .error ("SyntaxError: unexpected token in JSON: " ++ raw)

/-- One task row of the visible list: the text span content and whether
the `li` carries the `completed` class. -/
structure Task where
  text : String
  completed : Bool
deriving DecidableEq, Repr

/-- The full mutable state of the page: the visible task rows in display
order, the shared input field value, whether the body carries the
`dark-theme` class, the two localStorage keys, and the alerts surfaced so
far (most recent last). -/
structure AppState where
  taskList : List Task
  input : String
  darkTheme : Bool
  storeTasks : Option StoredVal
  storeTheme : Option String
  alerts : List String

/-- The state of a freshly opened page with empty storage. -/
def emptyState : AppState :=
  { taskList := [], input := "", darkTheme := false,
    storeTasks := none, storeTheme := none, alerts := [] }

/-- A restart: the DOM state is fresh, localStorage survives. -/
def restart (st : AppState) : AppState :=
  { emptyState with storeTasks := st.storeTasks, storeTheme := st.storeTheme }

/-- Serialization of one task row, as built by `saveTasks`:
`{ text: ..., completed: ... }`. -/
def encodeTask (t : Task) : JsVal :=
  .obj [("text", .str t.text), ("completed", .bool t.completed)]

/-- `saveTasks()`: collects every `li` of the current list in order into
text/completed objects and stores their JSON serialization under the
`tasks` key, overwriting any prior value. -/
def saveTasks (st : AppState) : AppState :=
  { st with storeTasks := some (.json (.arr (st.taskList.map encodeTask))) }

/-- The alert text surfaced when an empty task is rejected. -/
def emptyTaskAlert : String := "Please write down a task before adding it!"

/-- `addTask(taskText, isCompleted)`: if `taskText === ""` it alerts and
returns without touching anything else; otherwise it appends a row whose
text is the string coercion of `taskText` and whose completed class
follows the truthiness of `isCompleted`, clears the input field when
`!isCompleted && taskInput.value.trim() !== the empty string`, and ends with
`saveTasks()`. -/
def addTask (taskText : JsVal) (isCompleted : JsVal) (st : AppState) : AppState :=
  if isEmptyString taskText then
    { st with alerts := st.alerts ++ [emptyTaskAlert] }
  else
    let li : Task := { text := jsToString taskText, completed := jsTruthy isCompleted }
    let st1 : AppState := { st with taskList := st.taskList ++ [li] }
    let st2 : AppState :=
      if !jsTruthy isCompleted && jsTrim st1.input != "" then { st1 with input := "" } else st1
    saveTasks st2

/-- The live-input call `addTask()` (Enter key in the input field): both
parameters take their defaults, so the text is the trimmed current input
and `isCompleted` is `false`. -/
def addTaskEnter (st : AppState) : AppState :=
  addTask (.str (jsTrim st.input)) (.bool false) st

/-- The direct click target of a click dispatched to the task list: the
delete button of row `i`, the text span of row `i`, the `li` of row `i`
itself, or a spot outside every row (where `closest(li)` is null). -/
inductive ClickTarget where
  | deleteButton (i : Nat)
  | taskText (i : Nat)
  | row (i : Nat)
  | outside
deriving DecidableEq, Repr

/-- `clickedElement.closest(li)`: the index of the row containing the
click target, when there is one. -/
def closestLi : ClickTarget → Option Nat
  | .deleteButton i => some i
  | .taskText i => some i
  | .row i => some i
  | .outside => none

/-- `clickedElement.classList.contains(delete-button)`. -/
def isDeleteButton : ClickTarget → Bool
  | .deleteButton _ => true
  | _ => false

/-- Replace the element at index `i` by its image under `f`; out of range
indices leave the list unchanged. -/
def modifyIdx : List Task → Nat → (Task → Task) → List Task
  | [], _, _ => []
  | t :: rest, 0, f => f t :: rest
  | t :: rest, n + 1, f => t :: modifyIdx rest n f

/-- `listItem.classList.toggle(completed)` on one row. -/
def flipCompleted (t : Task) : Task := { t with completed := !t.completed }

/-- `handleTaskActions(e)`: if the click was not inside an `li`, do
nothing; if the direct target carries the `delete-button` class, remove
that row and save; otherwise toggle the completed class of that row and
save. -/
def handleTaskActions (e : ClickTarget) (st : AppState) : AppState :=
  match closestLi e with
  | none => st
  | some i =>
    if isDeleteButton e then
      saveTasks { st with taskList := st.taskList.eraseIdx i }
    else
      saveTasks { st with taskList := modifyIdx st.taskList i flipCompleted }

/-- Body of the `tasks.forEach` loop of `loadTasks`: for each parsed
entry, read `task.text` and `task.completed` (either access throws on a
`null` or `undefined` entry) and call `addTask` with them. -/
def loadTasksAux : List JsVal → AppState → Except String AppState
  | [], st => .ok st
  | task :: rest, st =>
    match getField task "text" with
    | .error e => .error e
    | .ok tx =>
      match getField task "completed" with
      | .error e => .error e
      | .ok cw => loadTasksAux rest (addTask tx cw st)

/-- `loadTasks()`: read the `tasks` key; when the stored string is absent
or empty the guard `if (savedTasks)` fails and nothing happens; otherwise
`JSON.parse` runs (throwing on a malformed string), `tasks.forEach`
throws a TypeError unless the document is an array, and each entry is fed
to `addTask` in stored order. -/
def loadTasks (st : AppState) : Except String AppState :=
  match st.storeTasks with
  | none => .ok st
  | some savedTasks =>
    if savedTasks.isTruthy then
      match jsonParse savedTasks with
      | .error e => .error e
      | .ok tasks =>
        match tasks with
        | .arr entries => loadTasksAux entries st
        | _ => .error "TypeError: tasks.forEach is not a function"
    else .ok st

/-- `toggleTheme()`: flip the `dark-theme` class on the body, then store
`dark` or `light` under `themePreference` according to the class now
present. -/
def toggleTheme (st : AppState) : AppState :=
  let dark := !st.darkTheme
  { st with darkTheme := dark,
            storeTheme := some (if dark then "dark" else "light") }

/-- `loadTheme()`: read `themePreference`; when the stored string is
absent or empty the guard `if (savedTheme)` fails and the body class is
untouched; otherwise the class is added exactly when the string is
`dark` and removed for every other string. -/
def loadTheme (st : AppState) : AppState :=
  match st.storeTheme with
  | none => st
  | some savedTheme =>
    if savedTheme != "" then
      if savedTheme == "dark" then { st with darkTheme := true }
      else { st with darkTheme := false }
    else st

/-! ## Basic evaluation lemmas -/

/-- String coercion of a string value returns it unchanged. -/
@[simp] theorem jsToString_str (s : String) : jsToString (.str s) = s := by
  simp [jsToString]

/-! ## Claims -/

/-- Claim C1, counterexample: a stored `tasks` value that is not parseable as
JSON makes `reload()` raise an error — `JSON.parse` throws a SyntaxError
that nothing in `loadTasks` catches — contradicting the claim that no
error is raised on any unparseable stored value. -/
theorem c1_counterexample :
    loadTasks { emptyState with storeTasks := some (.notJson "oops") } =
      .error "SyntaxError: unexpected token in JSON: oops" := rfl

/-- Claim C1, amended: when the `tasks` key is absent, or holds the empty
string (which the guard `if (savedTasks)` treats like absence),
`reload()` raises no error and leaves the state — in particular the Task
Collection — unchanged; for every other stored value that is not
parseable as JSON, the parse error propagates out of `reload()` (no
entry having been added before the throw). -/
theorem c1_reload_parse_behavior (st : AppState) (raw : String) (h : raw ≠ "") :
    loadTasks { st with storeTasks := none } = .ok { st with storeTasks := none } ∧
    loadTasks { st with storeTasks := some (.notJson "") } =
      .ok { st with storeTasks := some (.notJson "") } ∧
    loadTasks { st with storeTasks := some (.notJson raw) } =
      .error ("SyntaxError: unexpected token in JSON: " ++ raw) := by
  refine ⟨rfl, rfl, ?_⟩
  simp [loadTasks, StoredVal.isTruthy, jsonParse, h]

/-- Claim C1, witness at a concrete malformed stored value. -/
theorem c1_reload_parse_behavior_witness :
    ("oops" : String) ≠ "" ∧
    (loadTasks { emptyState with storeTasks := none } =
        .ok { emptyState with storeTasks := none } ∧
      loadTasks { emptyState with storeTasks := some (.notJson "") } =
        .ok { emptyState with storeTasks := some (.notJson "") } ∧
      loadTasks { emptyState with storeTasks := some (.notJson "oops") } =
        .error ("SyntaxError: unexpected token in JSON: " ++ "oops")) :=
  ⟨by decide, c1_reload_parse_behavior emptyState "oops" (by decide)⟩

/-- Claim C2, counterexample: calling `addTask` with the explicit
whitespace-only text `"   "` (the call shape the reload path uses) does
mutate state — the guard compares `"   " === ""`, which is false, so a
task is appended, the store is rewritten and no warning is surfaced —
contradicting the claim for whitespace-only input text. -/
theorem c2_counterexample :
    (addTask (.str "   ") (.bool false) emptyState).taskList =
      [{ text := "   ", completed := false }] ∧
    (addTask (.str "   ") (.bool false) emptyState).alerts = [] := by
  constructor <;>
    simp [addTask, isEmptyString, emptyState, jsTrim, saveTasks, jsTruthy]

/-- Claim C2, amended: on the live-input path — where the default parameter
trims the raw field value — empty or whitespace-only input surfaces the
EmptyTaskText warning and nothing else changes: the Task Collection, the
Persistent Store and the input field are untouched and the handler
returns normally; an explicit whitespace-only argument, by contrast, is
appended verbatim (see the counterexample). -/
theorem c2_live_blank_rejected (st : AppState) (h : jsTrim st.input = "") :
    addTaskEnter st = { st with alerts := st.alerts ++ [emptyTaskAlert] } := by
  simp [addTaskEnter, addTask, isEmptyString, h]

/-- Claim C2, witness: a whitespace-only input field is rejected. -/
theorem c2_live_blank_rejected_witness :
    jsTrim ("   " : String) = "" ∧
    addTaskEnter { emptyState with input := "   " } =
      { { emptyState with input := "   " } with
          alerts := ({ emptyState with input := "   " } : AppState).alerts ++ [emptyTaskAlert] } :=
  ⟨by decide, c2_live_blank_rejected { emptyState with input := "   " } (by decide)⟩

/-- Claim C4: evaluation at the failing input. A startup reload of the stored
entry `[ { text: "task", completed: false } ]` while the shared input
field holds `hello` clears the field: line 72 tests
`!isCompleted && taskInput.value.trim() !== the empty string`, which passes for a
loaded entry whose stored completed flag is false, although the comment
above it says the field is reset only for newly created tasks, not
loaded ones. -/
theorem c4_reload_clears_input :
    loadTasks { emptyState with
                  input := "hello",
                  storeTasks := some (.json (.arr
                    [.obj [("text", .str "task"), ("completed", .bool false)]])) } =
    .ok { taskList := [{ text := "task", completed := false }], input := "",
          darkTheme := false,
          storeTasks := some (.json (.arr
            [.obj [("text", .str "task"), ("completed", .bool false)]])),
          storeTheme := none, alerts := [] } := by
  have htrim : jsTrim "hello" ≠ "" := by decide
  simp [loadTasks, loadTasksAux, getField, addTask, isEmptyString, jsTruthy,
        saveTasks, encodeTask, StoredVal.isTruthy, jsonParse, emptyState,
        List.lookup, htrim]

/-- Claim C5: for every non-empty text, `addTask` appends exactly one entry,
with completed false and the text preserved verbatim; on the live-input
path the appended text is the trimmed raw input (non-empty after
trimming), internal whitespace preserved. -/
theorem c5_addTask_appends :
    (∀ (st : AppState) (s : String), s ≠ "" →
      (addTask (.str s) (.bool false) st).taskList =
        st.taskList ++ [{ text := s, completed := false }]) ∧
    (∀ st : AppState, jsTrim st.input ≠ "" →
      (addTaskEnter st).taskList =
        st.taskList ++ [{ text := jsTrim st.input, completed := false }]) := by
  constructor
  · intro st s h
    simp [addTask, isEmptyString, jsTruthy, saveTasks, h]
    split <;> rfl
  · intro st h
    simp [addTaskEnter, addTask, isEmptyString, jsTruthy, saveTasks, h]

/-- Claim C5, witness: a text with internal whitespace is appended verbatim. -/
theorem c5_addTask_appends_witness :
    ("a  b" : String) ≠ "" ∧
    (addTask (.str "a  b") (.bool false) emptyState).taskList =
      emptyState.taskList ++ [{ text := "a  b", completed := false }] :=
  ⟨by decide, c5_addTask_appends.1 emptyState "a  b" (by decide)⟩

/-- Claim C8: starting from a body without the dark class (the startup state),
the theme reload leaves the page dark exactly when the stored preference
is the string `dark`; any other stored value — including the empty
string, which the guard skips — and an absent key result in light
styling. -/
theorem c8_theme_reload (st : AppState) (h : st.darkTheme = false) :
    (loadTheme st).darkTheme = true ↔ st.storeTheme = some "dark" := by
  unfold loadTheme
  cases hs : st.storeTheme with
  | none => simp [h]
  | some t =>
    by_cases ht : t = ""
    · simp [ht, h]
    · by_cases hd : t = "dark" <;> simp [ht, hd, h]

/-- Claim C8, witness at a stored `dark` preference. -/
theorem c8_theme_reload_witness :
    ({ emptyState with storeTheme := some "dark" } : AppState).darkTheme = false ∧
    ((loadTheme { emptyState with storeTheme := some "dark" }).darkTheme = true ↔
      ({ emptyState with storeTheme := some "dark" } : AppState).storeTheme = some "dark") :=
  ⟨rfl, c8_theme_reload { emptyState with storeTheme := some "dark" } rfl⟩

/-- Claim C9: `toggleTheme()` stores exactly `dark` or `light` matching the
new display mode, and a reload in a restarted session applies that same
mode. -/
theorem c9_theme_roundtrip (st : AppState) :
    (toggleTheme st).storeTheme =
      some (if (toggleTheme st).darkTheme then "dark" else "light") ∧
    (loadTheme (restart (toggleTheme st))).darkTheme = (toggleTheme st).darkTheme := by
  cases h : st.darkTheme <;>
    simp [toggleTheme, loadTheme, restart, emptyState, h]

/-! ## List helper lemmas for the click dispatcher -/

/-- Entry lookup after an index update: the updated index holds the image
of the old entry, every other index is untouched. -/
theorem modifyIdx_getElem? (l : List Task) (i j : Nat) (f : Task → Task) :
    (modifyIdx l i f)[j]? = if i = j then (l[j]?).map f else l[j]? := by
  induction l generalizing i j with
  | nil => simp [modifyIdx]
  | cons t rest ih =>
    cases i with
    | zero => cases j <;> simp [modifyIdx]
    | succ n =>
      cases j with
      | zero => simp [modifyIdx]
      | succ m => simpa [modifyIdx] using ih n m

/-- Two index updates at the same index compose. -/
theorem modifyIdx_modifyIdx (l : List Task) (i : Nat) (f g : Task → Task) :
    modifyIdx (modifyIdx l i f) i g = modifyIdx l i (fun t => g (f t)) := by
  induction l generalizing i with
  | nil => simp [modifyIdx]
  | cons t rest ih => cases i <;> simp [modifyIdx, ih]

/-- An index update with a pointwise-identity function is the
identity. -/
theorem modifyIdx_id (l : List Task) (i : Nat) (f : Task → Task)
    (hf : ∀ t, f t = t) : modifyIdx l i f = l := by
  induction l generalizing i with
  | nil => rfl
  | cons t rest ih => cases i <;> simp [modifyIdx, hf, ih]

/-- Toggling the completed class twice restores the row. -/
theorem flipCompleted_flipCompleted (t : Task) :
    flipCompleted (flipCompleted t) = t := by
  cases t
  simp [flipCompleted]

/-- Claim C6: dispatch of a click on the task list — the delete
button of row i removes exactly row i (the surviving rows, hence their completed
flags, are untouched: no toggle happens); a click on the text span or on
the row itself flips the completed flag of row i and leaves every other row
unchanged; a click outside any row changes nothing at all. -/
theorem c6_click_dispatch (st : AppState) (i : Nat) (h : i < st.taskList.length) :
    ((handleTaskActions (.deleteButton i) st).taskList =
        st.taskList.take i ++ st.taskList.drop (i + 1) ∧
      (handleTaskActions (.deleteButton i) st).taskList.length + 1 =
        st.taskList.length) ∧
    ((handleTaskActions (.taskText i) st).taskList[i]? =
        (st.taskList[i]?).map flipCompleted ∧
      ∀ j : Nat, j ≠ i →
        (handleTaskActions (.taskText i) st).taskList[j]? = st.taskList[j]?) ∧
    ((handleTaskActions (.row i) st).taskList[i]? =
        (st.taskList[i]?).map flipCompleted ∧
      ∀ j : Nat, j ≠ i →
        (handleTaskActions (.row i) st).taskList[j]? = st.taskList[j]?) ∧
    handleTaskActions .outside st = st := by
  refine ⟨⟨?_, ?_⟩, ⟨?_, ?_⟩, ⟨?_, ?_⟩, rfl⟩
  · simp [handleTaskActions, closestLi, isDeleteButton, saveTasks,
          List.eraseIdx_eq_take_drop_succ]
  · simp [handleTaskActions, closestLi, isDeleteButton, saveTasks,
          List.length_eraseIdx, h]
    omega
  · simp [handleTaskActions, closestLi, isDeleteButton, saveTasks,
          modifyIdx_getElem?]
  · intro j hj
    simp [handleTaskActions, closestLi, isDeleteButton, saveTasks,
          modifyIdx_getElem?, Ne.symm hj]
  · simp [handleTaskActions, closestLi, isDeleteButton, saveTasks,
          modifyIdx_getElem?]
  · intro j hj
    simp [handleTaskActions, closestLi, isDeleteButton, saveTasks,
          modifyIdx_getElem?, Ne.symm hj]

/-- A concrete two-row state used to witness the click dispatcher
claims. -/
def twoRowState : AppState :=
  { emptyState with
      taskList := [{ text := "a", completed := false },
                   { text := "b", completed := true }] }

/-- Claim C6, witness on a concrete two-row list. -/
theorem c6_click_dispatch_witness :
    0 < twoRowState.taskList.length ∧
    (((handleTaskActions (.deleteButton 0) twoRowState).taskList =
        twoRowState.taskList.take 0 ++ twoRowState.taskList.drop 1 ∧
      (handleTaskActions (.deleteButton 0) twoRowState).taskList.length + 1 =
        twoRowState.taskList.length) ∧
    ((handleTaskActions (.taskText 0) twoRowState).taskList[0]? =
        (twoRowState.taskList[0]?).map flipCompleted ∧
      ∀ j : Nat, j ≠ 0 →
        (handleTaskActions (.taskText 0) twoRowState).taskList[j]? =
          twoRowState.taskList[j]?) ∧
    ((handleTaskActions (.row 0) twoRowState).taskList[0]? =
        (twoRowState.taskList[0]?).map flipCompleted ∧
      ∀ j : Nat, j ≠ 0 →
        (handleTaskActions (.row 0) twoRowState).taskList[j]? =
          twoRowState.taskList[j]?) ∧
    handleTaskActions .outside twoRowState = twoRowState) :=
  ⟨by decide, c6_click_dispatch twoRowState 0 (by decide)⟩

/-- Claim C7: toggling the same row twice restores the Task Collection exactly
— same length, same order, same texts, and the original completed value
of the toggled row. -/
theorem c7_double_toggle (st : AppState) (i : Nat) :
    (handleTaskActions (.taskText i)
        (handleTaskActions (.taskText i) st)).taskList = st.taskList := by
  simp [handleTaskActions, closestLi, isDeleteButton, saveTasks,
        modifyIdx_modifyIdx]
  exact modifyIdx_id _ _ _ flipCompleted_flipCompleted

/-! ## Round-trip machinery -/

/-- A successful `addTask` with an explicit non-empty string appends
exactly that task, leaves theme state and alerts alone, and rewrites the
store with the serialization of the new list. -/
theorem addTask_str_success (st : AppState) (s : String) (c : Bool) (h : s ≠ "") :
    (addTask (.str s) (.bool c) st).taskList =
        st.taskList ++ [{ text := s, completed := c }] ∧
    (addTask (.str s) (.bool c) st).darkTheme = st.darkTheme ∧
    (addTask (.str s) (.bool c) st).storeTheme = st.storeTheme ∧
    (addTask (.str s) (.bool c) st).alerts = st.alerts ∧
    (addTask (.str s) (.bool c) st).storeTasks =
      some (.json (.arr
        ((st.taskList ++ [({ text := s, completed := c } : Task)]).map encodeTask))) := by
  refine ⟨?_, ?_, ?_, ?_, ?_⟩ <;>
    simp [addTask, isEmptyString, jsTruthy, saveTasks, h] <;>
    split <;> simp

/-- Running the `forEach` body of `loadTasks` over the encoding of a
list of tasks with non-empty texts appends exactly those tasks in order
(possibly clearing the input field along the way), and — whenever at
least one entry was processed — leaves the store holding the
serialization of the final list, since every `addTask` call ends in
`saveTasks`. -/
theorem loadTasksAux_encoded (ts : List Task) (st : AppState)
    (h : ∀ t ∈ ts, t.text ≠ "") :
    ∃ st2, loadTasksAux (ts.map encodeTask) st = .ok st2 ∧
      st2.taskList = st.taskList ++ ts ∧
      st2.darkTheme = st.darkTheme ∧
      st2.storeTheme = st.storeTheme ∧
      st2.alerts = st.alerts ∧
      st2.storeTasks = (if ts.isEmpty then st.storeTasks
        else some (.json (.arr (st2.taskList.map encodeTask)))) := by
  induction ts generalizing st with
  | nil => exact ⟨st, rfl, by simp, rfl, rfl, rfl, by simp⟩
  | cons t rest ih =>
    have htx : t.text ≠ "" := h t (List.mem_cons_self t rest)
    obtain ⟨hTL1, hDT1, hST1, hAL1, hSTO1⟩ :=
      addTask_str_success st t.text t.completed htx
    obtain ⟨st2, hrun, hTL, hDT, hST, hAL, hSTO⟩ :=
      ih (addTask (.str t.text) (.bool t.completed) st)
        (fun u hu => h u (List.mem_cons_of_mem t hu))
    have hteta : ({ text := t.text, completed := t.completed } : Task) = t := rfl
    rw [hteta] at hTL1 hSTO1
    refine ⟨st2, ?_, ?_, ?_, ?_, ?_, ?_⟩
    · simpa [loadTasksAux, getField, encodeTask, List.lookup] using hrun
    · rw [hTL, hTL1, List.append_assoc]
      rfl
    · rw [hDT, hDT1]
    · rw [hST, hST1]
    · rw [hAL, hAL1]
    · have hcons : ¬((t :: rest).isEmpty = true) := by simp
      rw [if_neg hcons]
      by_cases hrnil : rest = []
      · subst hrnil
        simp only [List.isEmpty_nil, if_true] at hSTO
        rw [hSTO, hSTO1, hTL, hTL1]
        simp
      · have hrf : rest.isEmpty = false := by simpa using hrnil
        rw [hrf] at hSTO
        simpa using hSTO

/-- Claim C3: a persist of any Task Collection whose texts are all non-empty,
followed by a reload into a restarted (hence empty) page, reproduces the
original sequence of text/completed pairs exactly, in order. -/
theorem c3_roundtrip (ts : List Task) (h : ∀ t ∈ ts, t.text ≠ "") :
    ∃ st2, loadTasks (restart (saveTasks { emptyState with taskList := ts })) =
        .ok st2 ∧
      st2.taskList = ts := by
  have hre : restart (saveTasks { emptyState with taskList := ts }) =
      { emptyState with storeTasks := some (.json (.arr (ts.map encodeTask))) } := rfl
  rw [hre]
  obtain ⟨st2, hrun, hTL, -, -, -, -⟩ :=
    loadTasksAux_encoded ts
      { emptyState with storeTasks := some (.json (.arr (ts.map encodeTask))) } h
  refine ⟨st2, ?_, ?_⟩
  · simpa [loadTasks, StoredVal.isTruthy, jsonParse] using hrun
  · simpa [emptyState] using hTL

/-- Claim C3, witness: the two-task scenario of the specification. -/
theorem c3_roundtrip_witness :
    (∀ t ∈ [({ text := "Buy milk", completed := true } : Task),
            { text := "Walk dog", completed := false }], t.text ≠ "") ∧
    ∃ st2, loadTasks (restart (saveTasks { emptyState with
        taskList := [{ text := "Buy milk", completed := true },
                     { text := "Walk dog", completed := false }] })) = .ok st2 ∧
      st2.taskList = [{ text := "Buy milk", completed := true },
                      { text := "Walk dog", completed := false }] :=
  ⟨by decide, c3_roundtrip _ (by decide)⟩

/-- The persistence invariant: the string stored under the `tasks` key
is exactly the JSON serialization of the visible Task Collection in
display order. -/
def tasksInv (st : AppState) : Prop :=
  st.storeTasks = some (.json (.arr (st.taskList.map encodeTask)))

/-- Claim C10, counterexample: on a first run the `tasks` key is absent, and
`reload()` finishes without writing anything — so after `reload()` the
stored value is not the serialization of the (empty) collection,
contradicting the claim that `reload()` itself re-persists the
collection it reconstructed. -/
theorem c10_counterexample :
    loadTasks emptyState = .ok emptyState ∧ ¬ tasksInv emptyState := by
  exact ⟨rfl, by simp [tasksInv, emptyState]⟩

/-- Claim C10, amended: after every completed mutating operation — a
successful add (any call path), a toggle, a delete — the stored `tasks`
value equals the JSON serialization of the current collection, because
each of those code paths ends in `saveTasks`; after `reload()` the same
holds provided the stored payload was the serialization of at least one
task with non-empty text (each seeding `addTask` re-persists, so the
last one leaves the invariant established); when the key is absent — or
no stored entry leads to a successful `addTask` — `reload()` writes
nothing and the prior stored state simply remains. -/
theorem c10_store_matches_collection :
    (∀ (st : AppState) (tx cw : JsVal), isEmptyString tx = false →
      tasksInv (addTask tx cw st)) ∧
    (∀ (st : AppState) (e : ClickTarget), closestLi e ≠ none →
      tasksInv (handleTaskActions e st)) ∧
    (∀ (ts : List Task) (st : AppState), ts ≠ [] → (∀ t ∈ ts, t.text ≠ "") →
      st.storeTasks = some (.json (.arr (ts.map encodeTask))) →
      ∃ st2, loadTasks st = .ok st2 ∧ tasksInv st2) := by
  refine ⟨?_, ?_, ?_⟩
  · intro st tx cw hx
    simp [addTask, hx, tasksInv, saveTasks]
  · intro st e he
    cases e with
    | outside => exact absurd rfl he
    | deleteButton i => simp [handleTaskActions, closestLi, isDeleteButton, saveTasks, tasksInv]
    | taskText i => simp [handleTaskActions, closestLi, isDeleteButton, saveTasks, tasksInv]
    | row i => simp [handleTaskActions, closestLi, isDeleteButton, saveTasks, tasksInv]
  · intro ts st hne h hsto
    obtain ⟨st2, hrun, hTL, -, -, -, hSTO⟩ := loadTasksAux_encoded ts st h
    refine ⟨st2, ?_, ?_⟩
    · rw [loadTasks, hsto]
      simpa [StoredVal.isTruthy, jsonParse] using hrun
    · have : ts.isEmpty = false := by
        cases ts with
        | nil => exact absurd rfl hne
        | cons a b => rfl
      rw [tasksInv, hSTO, this]
      simp

/-- Claim C10, witness: a successful add establishes the invariant. -/
theorem c10_store_matches_collection_witness :
    isEmptyString (.str "a") = false ∧
    tasksInv (addTask (.str "a") (.bool false) emptyState) :=
  ⟨by decide, c10_store_matches_collection.1 emptyState (.str "a") (.bool false) (by decide)⟩

end TodoApp
